import Mathlib

/-!
Verification of the project-tracker serverless API (`src/lambda_function.py`).

The Python module is a thin routing layer over a DynamoDB table:
a router (`lambda_handler`) resolves `(path, httpMethod)` to one of five
handlers, an error wrapper (`handle_errors`) converts any raised exception
into a 500 response, and each handler performs one store operation.

Shallow embedding conventions:
* Python `str` is Lean `String`; Python's `str.split(sep)` and
  `str.startswith` are re-implemented below on `String.data` so that their
  semantics (which the router depends on) are explicit and provable.
* Python exceptions are `Except String`: a handler's computation returns
  `.error msg` exactly where the Python code would raise, and `handle_errors`
  is the single catch boundary.
* JSON values are the inductive `JVal`; `json.loads` of a request body is
  modelled by storing the parse outcome in the event (`none` = the body key
  was absent, Python `None`, on which `json.loads` raises; `some (.error m)`
  = a string that fails to parse; `some (.ok v)` = a string parsing to `v`).
  `json.dumps` is the function `dumps` below (default separators, as in the
  Python default; string escaping covers the cases the API produces).
* The DynamoDB table is external to the repository.  Modelled from the spec:
  the storage collaborator interface of section 6 (`put` upserts by id,
  `getByKey` returns the item or absent, `updateFields` and `deleteByKey`
  are unconditional with no existence check).  The table is a `List Item`
  threaded through the handlers as explicit state; `lambda_handler` returns
  the response together with the table state after the call.
-/

/-- A JSON value, as produced by `json.loads`.  Python `None` and JSON
`null` are both `JVal.null` (they serialize identically and `dict.get`
returns `None` for a missing key). -/
inductive JVal : Type where
  | null : JVal
  | bool : Bool → JVal
  | num : Int → JVal
  | str : String → JVal
  | arr : List JVal → JVal
  | obj : List (String × JVal) → JVal

/-- One hex digit, lower case, as `json.dumps` prints in escapes. -/
def hexDigit (n : Nat) : Char :=
  if n < 10 then Char.ofNat (48 + n) else Char.ofNat (87 + n)

/-- Four hex digits of a code point, for a JSON escape. -/
def hex4 (n : Nat) : String :=
  String.mk [hexDigit (n / 4096 % 16), hexDigit (n / 256 % 16),
    hexDigit (n / 16 % 16), hexDigit (n % 16)]

/-- Escaping of one character inside a JSON string, per `json.dumps` with
its default `ensure_ascii=True`: quote, backslash and the common control
characters get two-character escapes, other control characters and
non-ASCII characters get a code-point escape.  (Characters above the basic
multilingual plane would use surrogate pairs in Python; the API only ever
emits ASCII messages, so the single-escape form is used here.) -/
def escapeJsonChar (c : Char) : String :=
  if c = '"' then "\\\""
  else if c = '\\' then "\\\\"
  else if c = '\n' then "\\n"
  else if c = '\t' then "\\t"
  else if c = '\r' then "\\r"
  else if c.toNat < 32 ∨ 127 < c.toNat then "\\u" ++ hex4 (c.toNat % 65536)
  else String.singleton c

/-- Escaping of a JSON string body, per `json.dumps`. -/
def escapeJson (s : String) : String :=
  String.join (s.data.map escapeJsonChar)

mutual

/-- `json.dumps` with the Python default separators `", "` and `": "`. -/
def dumps : JVal → String
  | JVal.null => "null"
  | JVal.bool b => if b then "true" else "false"
  | JVal.num n => toString n
  | JVal.str s => "\"" ++ escapeJson s ++ "\""
  | JVal.arr xs => "[" ++ dumpsArr xs ++ "]"
  | JVal.obj fs => "\x7b" ++ dumpsObj fs ++ "\x7d"

/-- The comma-separated rendering of a JSON array's elements. -/
def dumpsArr : List JVal → String
  | [] => ""
  | [x] => dumps x
  | x :: y :: xs => dumps x ++ ", " ++ dumpsArr (y :: xs)

/-- The comma-separated rendering of a JSON object's key/value pairs. -/
def dumpsObj : List (String × JVal) → String
  | [] => ""
  | [(k, v)] => "\"" ++ escapeJson k ++ "\": " ++ dumps v
  | (k, v) :: f :: fs =>
      "\"" ++ escapeJson k ++ "\": " ++ dumps v ++ ", " ++ dumpsObj (f :: fs)

end

/-- `json.loads(event.get('body'))`.  `json.loads(None)` raises a
`TypeError`; a malformed body string raises a `JSONDecodeError` (carried
here as the stored message); a well-formed body yields its parse. -/
def pyJsonLoads : Option (Except String JVal) → Except String JVal
  | none => Except.error "the JSON object must be str, bytes or bytearray, not NoneType"
  | some (Except.error m) => Except.error m
  | some (Except.ok v) => Except.ok v

/-- `body.get(key)` on the result of `json.loads`: on a dict it returns the
value, or `None` (= `JVal.null`) when the key is absent; on any non-dict
JSON value, `.get` raises an `AttributeError`. -/
def jGet : JVal → String → Except String JVal
  | JVal.obj fs, k => Except.ok ((List.lookup k fs).getD JVal.null)
  | _, _ => Except.error "object has no attribute get"

/-- A stored project item: the five attributes `create_project` writes.
DynamoDB stores Python `None` as the NULL type and hands it back as `None`,
so `JVal.null` round-trips. -/
structure Item : Type where
  id : String
  name : JVal
  description : JVal
  status : JVal
  createdAt : JVal

/-- The item as the dict the handlers serialize (insertion order of
`create_project`). -/
def itemToJson (it : Item) : JVal :=
  JVal.obj [("id", JVal.str it.id), ("name", it.name),
    ("description", it.description), ("status", it.status),
    ("createdAt", it.createdAt)]

/-- The DynamoDB table state: the stored items. -/
abbrev Store : Type := List Item

/-- Modelled from the spec: `getByKey(id) -> mapping or absent`
(`table.get_item(Key={'id': id})` followed by `response.get('Item')`). -/
def get_item (s : Store) (pid : String) : Option Item :=
  List.find? (fun j => j.id == pid) s

/-- Modelled from the spec: `put(item)` — upsert by `id`
(`table.put_item(Item=item)`). -/
def put_item (s : Store) (it : Item) : Store :=
  if List.any s (fun j => j.id == it.id) then
    List.map (fun j => if j.id == it.id then it else j) s
  else s ++ [it]

/-- Modelled from the spec: `updateFields(id, fields)` — unconditional, no
existence check (`table.update_item` with `SET #n = :name, #d = :description,
#s = :status`).  On a present key the three attributes are replaced; on an
absent key DynamoDB upserts an item carrying only the key and the updated
attributes (its absent `createdAt` is rendered `JVal.null` here). -/
def update_item (s : Store) (pid : String) (n d st : JVal) : Store :=
  if List.any s (fun j => j.id == pid) then
    List.map (fun j => if j.id == pid then
      { j with name := n, description := d, status := st } else j) s
  else s ++ [⟨pid, n, d, st, JVal.null⟩]

/-- Modelled from the spec: `deleteByKey(id)` — unconditional, no existence
check (`table.delete_item(Key={'id': id})`). -/
def delete_item (s : Store) (pid : String) : Store :=
  List.filter (fun j => !(j.id == pid)) s

/-- The API Gateway event as the handlers read it: `event.get('httpMethod')`,
`event.get('path')`, `event.get('body')` (its parse outcome, see above) and
`event['pathParameters']` (`none` = Python `None`; `some x` = `{'id': x}`,
the only shape the router ever stores). -/
structure Event : Type where
  httpMethod : Option String
  path : Option String
  body : Option (Except String JVal)
  pathParameters : Option String

/-- A handler's `{'statusCode': ..., 'body': ...}` return value. -/
structure Response : Type where
  statusCode : Nat
  body : String

/-- `create_project` (POST `/projects`): parse the body, build the item
with the freshly generated id (`str(uuid.uuid4())`, passed in as `newId`),
persist it, return 201 with the item as body. -/
def create_project (event : Event) (s : Store) (newId : String) :
    Except String (Response × Store) := do
  let body ← pyJsonLoads event.body
  let nameV ← jGet body "name"
  let descV ← jGet body "description"
  let statusV ← jGet body "status"
  let createdV ← jGet body "createdAt"
  let item : Item := ⟨newId, nameV, descV, statusV, createdV⟩
  Except.ok (⟨201, dumps (itemToJson item)⟩, put_item s item)

/-- `get_all_projects` (GET `/projects`): scan the table, return 200 with
the item list as body. -/
def get_all_projects (_event : Event) (s : Store) :
    Except String (Response × Store) :=
  Except.ok (⟨200, dumps (JVal.arr (List.map itemToJson s))⟩, s)

/-- `get_project_by_id` (GET `/projects/{id}`): look the item up by the
path parameter; 404 with `Project not found` when absent, else 200 with the
item.  `event['pathParameters']['id']` raises a `TypeError` when the router
stored `None`. -/
def get_project_by_id (event : Event) (s : Store) :
    Except String (Response × Store) :=
  match event.pathParameters with
  | none => Except.error "NoneType object is not subscriptable"
  | some project_id =>
    match get_item s project_id with
    | none =>
        Except.ok (⟨404, dumps (JVal.obj [("message", JVal.str "Project not found")])⟩, s)
    | some item => Except.ok (⟨200, dumps (itemToJson item)⟩, s)

/-- `update_project` (PUT `/projects/{id}`): parse the body, replace the
`name`, `description` and `status` attributes of the keyed item, return 200
with the fixed success message. -/
def update_project (event : Event) (s : Store) :
    Except String (Response × Store) := do
  match event.pathParameters with
  | none => Except.error "NoneType object is not subscriptable"
  | some project_id => do
    let body ← pyJsonLoads event.body
    let nameV ← jGet body "name"
    let descV ← jGet body "description"
    let statusV ← jGet body "status"
    Except.ok (⟨200, dumps (JVal.obj [("message", JVal.str "Project updated successfully")])⟩,
      update_item s project_id nameV descV statusV)

/-- `delete_project` (DELETE `/projects/{id}`): delete by the path
parameter, return 200 with the fixed success message. -/
def delete_project (event : Event) (s : Store) :
    Except String (Response × Store) :=
  match event.pathParameters with
  | none => Except.error "NoneType object is not subscriptable"
  | some project_id =>
    Except.ok (⟨200, dumps (JVal.obj [("message", JVal.str "Project deleted successfully")])⟩,
      delete_item s project_id)

/-- The five handlers registered in `routes` by the `@route` decorators. -/
inductive HandlerRef : Type where
  | createProject : HandlerRef
  | getAllProjects : HandlerRef
  | getProjectById : HandlerRef
  | updateProject : HandlerRef
  | deleteProject : HandlerRef

/-- `routes.get(handler_path, {}).get(http_method)`: the dispatch table the
decorators build, looked up by resolved path pattern and method.  A missing
`httpMethod` key (`None`) matches no registration. -/
def routes (handler_path : String) (http_method : Option String) :
    Option HandlerRef :=
  if handler_path = "/projects" then
    match http_method with
    | some "POST" => some HandlerRef.createProject
    | some "GET" => some HandlerRef.getAllProjects
    | _ => none
  else if handler_path = "/projects/\x7bid\x7d" then
    match http_method with
    | some "GET" => some HandlerRef.getProjectById
    | some "PUT" => some HandlerRef.updateProject
    | some "DELETE" => some HandlerRef.deleteProject
    | _ => none
  else none

/-- Python `str.split(sep)` for a one-character separator, on the character
list: always at least one part, empty parts kept (`''.split('/') == ['']`,
`'/a/'.split('/') == ['', 'a', '']`). -/
def pySplitList (sep : Char) : List Char → List (List Char)
  | [] => [[]]
  | c :: cs =>
    let rest := pySplitList sep cs
    if c = sep then [] :: rest
    else
      match rest with
      | [] => [[c]]
      | p :: ps => (c :: p) :: ps

/-- Python `path.split('/')` on strings. -/
def pySplit (sep : Char) (s : String) : List String :=
  List.map String.mk (pySplitList sep s.data)

/-- Python `s.startswith(pre)`. -/
def pyStartsWith (s pre : String) : Bool :=
  List.isPrefixOf pre.data s.data

/-- The router's path-parameter check (`lambda_handler` lines 57-63): a path
starting with `/projects/` that splits into exactly three parts with
`projects` second resolves to the dynamic pattern and binds `id` to the
third part; anything else is looked up literally.  Returns
`(handler_path, path_parameters)`. -/
def resolveRoute (path : String) : String × Option String :=
  if pyStartsWith path "/projects/" then
    let path_parts := pySplit '/' path
    if path_parts.length = 3 ∧ path_parts.getD 1 "" = "projects" then
      ("/projects/\x7bid\x7d", some (path_parts.getD 2 ""))
    else (path, none)
  else (path, none)

/-- Dispatch to the resolved handler, as `handler(event)` after
`event['pathParameters'] = path_parameters`. -/
def runHandler : HandlerRef → Event → Store → String →
    Except String (Response × Store)
  | HandlerRef.createProject, ev, s, newId => create_project ev s newId
  | HandlerRef.getAllProjects, ev, s, _ => get_all_projects ev s
  | HandlerRef.getProjectById, ev, s, _ => get_project_by_id ev s
  | HandlerRef.updateProject, ev, s, _ => update_project ev s
  | HandlerRef.deleteProject, ev, s, _ => delete_project ev s

/-- The body of `lambda_handler` before the `handle_errors` wrapper: read
`httpMethod` and `path` (`path.startswith` raises an `AttributeError` when
the event has no path), resolve the route, 404 on a missing handler, else
store the path parameters in the event and invoke the handler. -/
def lambda_handler_inner (event : Event) (s : Store) (newId : String) :
    Except String (Response × Store) :=
  let http_method := event.httpMethod
  match event.path with
  | none => Except.error "NoneType object has no attribute startswith"
  | some path =>
    let rp := resolveRoute path
    match routes rp.1 http_method with
    | none =>
        Except.ok (⟨404, dumps (JVal.obj [("message", JVal.str "Not Found")])⟩, s)
    | some h => runHandler h { event with pathParameters := rp.2 } s newId

/-- `handle_errors` applied to `lambda_handler`: any raised exception
becomes a 500 response embedding the exception's description, and the table
is unchanged (every raising operation in the module precedes the handler's
single store call). -/
def lambda_handler (event : Event) (s : Store) (newId : String) :
    Response × Store :=
  match lambda_handler_inner event s newId with
  | Except.ok r => r
  | Except.error e =>
      (⟨500, dumps (JVal.obj [("message", JVal.str ("An internal error occurred: " ++ e))])⟩, s)

theorem pySplitList_ne_nil (sep : Char) (l : List Char) : pySplitList sep l ≠ [] := by
  cases l with
  | nil => simp [pySplitList]
  | cons c cs =>
    simp only [pySplitList]
    by_cases h : c = sep
    · simp [h]
    · simp only [if_neg h]
      cases pySplitList sep cs <;> simp

theorem pySplitList_no_sep (sep : Char) (l : List Char) (h : sep ∉ l) :
    pySplitList sep l = [l] := by
  induction l with
  | nil => rfl
  | cons c cs ih =>
    simp only [List.mem_cons, not_or] at h
    have hc : c ≠ sep := fun he => h.1 he.symm
    simp only [pySplitList, if_neg hc, ih h.2]

theorem pySplitList_cons_ne_length (sep c : Char) (l : List Char) (h : c ≠ sep) :
    (pySplitList sep (c :: l)).length = (pySplitList sep l).length := by
  simp only [pySplitList, if_neg h]
  rcases he : pySplitList sep l with _ | ⟨p, ps⟩
  · exact absurd he (pySplitList_ne_nil sep l)
  · simp

theorem pySplitList_cons_sep (sep : Char) (l : List Char) :
    pySplitList sep (sep :: l) = [] :: pySplitList sep l := by
  simp [pySplitList]

theorem pySplitList_append_sep_length (sep : Char) (l m : List Char) :
    (pySplitList sep (l ++ sep :: m)).length =
      (pySplitList sep l).length + (pySplitList sep m).length := by
  induction l with
  | nil =>
    rw [List.nil_append, pySplitList_cons_sep]
    have h0 : pySplitList sep ([] : List Char) = [[]] := rfl
    rw [h0]
    simp [Nat.add_comm]
  | cons c cs ih =>
    by_cases h : c = sep
    · subst h
      rw [List.cons_append, pySplitList_cons_sep, pySplitList_cons_sep]
      simp only [List.length_cons, ih]
      omega
    · rw [List.cons_append, pySplitList_cons_ne_length sep c _ h,
        pySplitList_cons_ne_length sep c _ h, ih]

theorem splitProjects (x : String) (hx : '/' ∉ x.data) :
    pySplitList '/' (("/projects/" ++ x).data) =
      [[], "projects".data, x.data] := by
  have hdata : ("/projects/" ++ x).data = "/projects/".data ++ x.data := by
    simp [String.data_append]
  rw [hdata]
  have hper : ("/projects/" : String).data =
      ['/', 'p', 'r', 'o', 'j', 'e', 'c', 't', 's', '/'] := rfl
  rw [hper]
  have hx' : pySplitList '/' x.data = [x.data] := pySplitList_no_sep _ _ hx
  simp [pySplitList, hx']

theorem pySplit_projects (x : String) (hx : '/' ∉ x.data) :
    pySplit '/' ("/projects/" ++ x) = ["", "projects", x] := by
  rw [pySplit, splitProjects x hx]
  rfl

theorem resolveRoute_dynamic (x : String) (hx : '/' ∉ x.data) :
    resolveRoute ("/projects/" ++ x) = ("/projects/\x7bid\x7d", some x) := by
  have hpre : pyStartsWith ("/projects/" ++ x) "/projects/" = true := by
    simp [pyStartsWith, String.data_append, List.isPrefixOf_iff_prefix]
  simp [resolveRoute, hpre, pySplit_projects x hx]

theorem resolveRoute_many_segments (x y : String) (hx : '/' ∉ x.data) :
    resolveRoute ("/projects/" ++ x ++ "/" ++ y) =
      ("/projects/" ++ x ++ "/" ++ y, none) := by
  have hdata : ("/projects/" ++ x ++ "/" ++ y).data
      = ("/projects/".data ++ x.data) ++ '/' :: y.data := by
    simp [String.data_append]
  have hpre : pyStartsWith ("/projects/" ++ x ++ "/" ++ y) "/projects/" = true := by
    rw [pyStartsWith, hdata]
    simp [List.isPrefixOf_iff_prefix, List.append_assoc]
  have hlen : (pySplit '/' ("/projects/" ++ x ++ "/" ++ y)).length
      = 3 + (pySplitList '/' y.data).length := by
    rw [pySplit, List.length_map, hdata, pySplitList_append_sep_length]
    have h2 : ("/projects/".data ++ x.data) = ("/projects/" ++ x).data := by
      simp [String.data_append]
    rw [h2, splitProjects x hx]
    rfl
  have hne : (pySplit '/' ("/projects/" ++ x ++ "/" ++ y)).length ≠ 3 := by
    rw [hlen]
    cases h : pySplitList '/' y.data with
    | nil => exact absurd h (pySplitList_ne_nil '/' y.data)
    | cons a as => simp
  simp only [resolveRoute]
  rw [if_pos hpre, if_neg]
  intro hcond
  exact hne hcond.1

theorem put_item_fresh (s : Store) (it : Item) (h : get_item s it.id = none) :
    put_item s it = s ++ [it] := by
  rw [get_item, List.find?_eq_none] at h
  rw [put_item, if_neg]
  simp only [List.any_eq_true, not_exists, not_and]
  intro j hj
  exact fun hb => h j hj hb

theorem get_item_append_fresh (s : Store) (it : Item) (h : get_item s it.id = none) :
    get_item (s ++ [it]) it.id = some it := by
  rw [get_item, List.find?_eq_none] at h
  induction s with
  | nil => simp [get_item]
  | cons a as ih =>
    have ha : ¬(a.id == it.id) = true := h a (List.mem_cons_self a as)
    rw [List.cons_append, get_item,
      @List.find?_cons_of_neg _ (fun j => j.id == it.id) a (as ++ [it]) ha]
    exact ih (fun j hj => h j (List.mem_cons_of_mem a hj))

theorem get_item_map_keyed (s : Store) (pid : String) (it : Item) (f : Item → Item)
    (hf : ∀ j, (j.id == pid) = true → (f j).id = j.id)
    (h : get_item s pid = some it) :
    get_item (List.map (fun j => if j.id == pid then f j else j) s) pid = some (f it) := by
  induction s with
  | nil => simp [get_item] at h
  | cons a as ih =>
    by_cases ha : (a.id == pid) = true
    · rw [get_item, @List.find?_cons_of_pos _ (fun j => j.id == pid) a as ha] at h
      have he : a = it := Option.some.inj h
      subst he
      have hfa : ((f a).id == pid) = true := by rw [hf a ha]; exact ha
      rw [List.map_cons, if_pos ha, get_item,
        @List.find?_cons_of_pos _ (fun j => j.id == pid) (f a) _ hfa]
    · rw [get_item, @List.find?_cons_of_neg _ (fun j => j.id == pid) a as ha] at h
      rw [List.map_cons, if_neg ha, get_item,
        @List.find?_cons_of_neg _ (fun j => j.id == pid) a _ ha]
      exact ih h

theorem get_item_delete_item (s : Store) (pid : String) :
    get_item (delete_item s pid) pid = none := by
  rw [get_item, List.find?_eq_none]
  intro j hj
  rw [delete_item, List.mem_filter] at hj
  simpa using hj.2

theorem get_item_put_item (s : Store) (it : Item) :
    get_item (put_item s it) it.id = some it := by
  rw [put_item]
  by_cases h : List.any s (fun j => j.id == it.id) = true
  · rw [if_pos h]
    obtain ⟨j0, hj0, hp⟩ := List.any_eq_true.mp h
    have hex : ∃ x, get_item s it.id = some x := by
      cases hgi : get_item s it.id with
      | some x => exact ⟨x, rfl⟩
      | none =>
        rw [get_item, List.find?_eq_none] at hgi
        exact absurd hp (hgi j0 hj0)
    obtain ⟨x, hx⟩ := hex
    have := get_item_map_keyed s it.id x (fun _ => it)
      (fun j hj => (eq_of_beq hj).symm) hx
    simpa using this
  · rw [if_neg h]
    have hnone : get_item s it.id = none := by
      rw [get_item, List.find?_eq_none]
      intro j hj hb
      exact h (List.any_eq_true.mpr ⟨j, hj, hb⟩)
    exact get_item_append_fresh s it hnone

/-- C1: for every request path `/projects/<x>` where `<x>` contains no
slash (including the empty `<x>` from the trailing-slash path `/projects/`),
the router resolves the dynamic pattern `/projects/{id}` and binds the path
parameter `id` to `<x>`, and GET/PUT/DELETE requests on such a path are
dispatched to the corresponding by-id handler with that binding; a path of
the form `/projects/<x>/<y>` never matches the dynamic pattern and is left
to (failing) literal lookup. -/

theorem router_dynamic_binding (x y : String) (hx : '/' ∉ x.data) :
    resolveRoute ("/projects/" ++ x) = ("/projects/\x7bid\x7d", some x)
    ∧ (∀ (b : Option (Except String JVal)) (pp : Option String) (s : Store) (newId : String),
      lambda_handler_inner ⟨some "GET", some ("/projects/" ++ x), b, pp⟩ s newId
        = get_project_by_id ⟨some "GET", some ("/projects/" ++ x), b, some x⟩ s
      ∧ lambda_handler_inner ⟨some "PUT", some ("/projects/" ++ x), b, pp⟩ s newId
        = update_project ⟨some "PUT", some ("/projects/" ++ x), b, some x⟩ s
      ∧ lambda_handler_inner ⟨some "DELETE", some ("/projects/" ++ x), b, pp⟩ s newId
        = delete_project ⟨some "DELETE", some ("/projects/" ++ x), b, some x⟩ s)
    ∧ resolveRoute ("/projects/" ++ x ++ "/" ++ y)
        = ("/projects/" ++ x ++ "/" ++ y, none) := by
  refine ⟨resolveRoute_dynamic x hx, ?_, resolveRoute_many_segments x y hx⟩
  intro b pp s newId
  refine ⟨?_, ?_, ?_⟩ <;>
  · simp only [lambda_handler_inner, resolveRoute_dynamic x hx]
    rfl

theorem router_dynamic_binding_witness :
    '/' ∉ "abc".data
    ∧ resolveRoute ("/projects/" ++ "abc") = ("/projects/\x7bid\x7d", some "abc") :=
  ⟨by decide, (router_dynamic_binding "abc" "b" (by decide)).1⟩

/-- C2: for every event carrying a path whose resolved pattern has no
registered handler for the event's method — unknown pattern, or known
pattern with an unregistered (or absent) method — the entry point returns
exactly statusCode 404 with body {"message": "Not Found"} and leaves the
store untouched. -/

theorem unrouted_request_not_found (ev : Event) (s : Store) (newId : String)
    (p : String) (hp : ev.path = some p)
    (hr : routes (resolveRoute p).1 ev.httpMethod = none) :
    lambda_handler ev s newId =
      (⟨404, "\x7b\"message\": \"Not Found\"\x7d"⟩, s) := by
  obtain ⟨m, pa, b, pp⟩ := ev
  simp only at hp hr
  subst hp
  simp only [lambda_handler, lambda_handler_inner, hr]
  rfl

theorem unrouted_request_not_found_witness :
    (⟨some "GET", some "/nope", none, none⟩ : Event).path = some "/nope"
    ∧ lambda_handler ⟨some "GET", some "/nope", none, none⟩ [] "u1"
        = (⟨404, "\x7b\"message\": \"Not Found\"\x7d"⟩, []) :=
  ⟨rfl, unrouted_request_not_found ⟨some "GET", some "/nope", none, none⟩ [] "u1"
    "/nope" rfl rfl⟩

/-- C3: the entry point never propagates a failure: either the inner
routing/handling succeeds and its response is returned unchanged, or it
raises with some description `e` and the entry point returns statusCode 500
with body {"message": "An internal error occurred: <e>"} (the store
unchanged).  Every possible failure — missing path, unparseable body,
non-dict body — reaches the caller only through this 500 shape. -/

theorem error_wrapper_total (ev : Event) (s : Store) (newId : String) :
    (∃ r, lambda_handler_inner ev s newId = Except.ok r
      ∧ lambda_handler ev s newId = r)
    ∨ (∃ e, lambda_handler_inner ev s newId = Except.error e
      ∧ lambda_handler ev s newId =
        (⟨500, dumps (JVal.obj [("message",
          JVal.str ("An internal error occurred: " ++ e))])⟩, s)) := by
  cases h : lambda_handler_inner ev s newId with
  | ok r => exact Or.inl ⟨r, rfl, by simp [lambda_handler, h]⟩
  | error e => exact Or.inr ⟨e, rfl, by simp [lambda_handler, h]⟩

/-- C4: a create request (POST /projects) with a JSON-object body returns
201 with the created item (carrying the freshly generated id `newId`, which
is not yet in the store, and the body's name/description/status/createdAt
values), appends exactly that item to the store, and a subsequent
get-by-id (GET /projects/<newId>) returns 200 with that same item as
body. -/

theorem create_then_get_by_id (s : Store) (newId : String) (n d st c : JVal)
    (hfresh : get_item s newId = none) (hx : '/' ∉ newId.data) :
    lambda_handler ⟨some "POST", some "/projects",
        some (Except.ok (JVal.obj [("name", n), ("description", d),
          ("status", st), ("createdAt", c)])), none⟩ s newId
      = (⟨201, dumps (itemToJson ⟨newId, n, d, st, c⟩)⟩,
          s ++ [⟨newId, n, d, st, c⟩])
    ∧ lambda_handler ⟨some "GET", some ("/projects/" ++ newId), none, none⟩
        (s ++ [⟨newId, n, d, st, c⟩]) newId
      = (⟨200, dumps (itemToJson ⟨newId, n, d, st, c⟩)⟩,
          s ++ [⟨newId, n, d, st, c⟩]) := by
  constructor
  · simp only [lambda_handler, lambda_handler_inner]
    have h1 : resolveRoute "/projects" = ("/projects", none) := rfl
    rw [h1]
    have h2 : routes "/projects" (some "POST") = some HandlerRef.createProject := rfl
    rw [h2]
    simp only [runHandler, create_project, pyJsonLoads, jGet, bind]
    simp only [Except.bind]
    have ln : List.lookup "name" [("name", n), ("description", d),
        ("status", st), ("createdAt", c)] = some n := by simp [List.lookup]
    have ld : List.lookup "description" [("name", n), ("description", d),
        ("status", st), ("createdAt", c)] = some d := by simp [List.lookup]
    have ls : List.lookup "status" [("name", n), ("description", d),
        ("status", st), ("createdAt", c)] = some st := by simp [List.lookup]
    have lc : List.lookup "createdAt" [("name", n), ("description", d),
        ("status", st), ("createdAt", c)] = some c := by simp [List.lookup]
    rw [ln, ld, ls, lc]
    simp only [Option.getD_some]
    rw [put_item_fresh s ⟨newId, n, d, st, c⟩ hfresh]
  · simp only [lambda_handler, lambda_handler_inner, resolveRoute_dynamic newId hx]
    have h2 : routes "/projects/\x7bid\x7d" (some "GET")
        = some HandlerRef.getProjectById := rfl
    rw [h2]
    simp only [runHandler, get_project_by_id]
    rw [get_item_append_fresh s ⟨newId, n, d, st, c⟩ hfresh]

theorem create_then_get_by_id_witness :
    get_item [] "id-123" = none
    ∧ lambda_handler ⟨some "GET", some ("/projects/" ++ "id-123"), none, none⟩
        ([] ++ [⟨"id-123", JVal.str "A", JVal.str "d", JVal.str "open",
          JVal.str "2024-01-01"⟩]) "id-123"
      = (⟨200, dumps (itemToJson ⟨"id-123", JVal.str "A", JVal.str "d",
          JVal.str "open", JVal.str "2024-01-01"⟩)⟩,
         [] ++ [⟨"id-123", JVal.str "A", JVal.str "d", JVal.str "open",
          JVal.str "2024-01-01"⟩]) :=
  ⟨rfl, (create_then_get_by_id [] "id-123" (JVal.str "A") (JVal.str "d")
    (JVal.str "open") (JVal.str "2024-01-01") rfl (by decide)).2⟩

/-- C5: for every id, the get-by-id handler returns 200 with the stored
item as body when the store holds an item with that id, and 404 with body
{"message": "Project not found"} when it does not; the store is untouched
either way. -/

theorem get_by_id_found_or_not (s : Store) (pid : String) (m p : Option String)
    (b : Option (Except String JVal)) :
    get_project_by_id ⟨m, p, b, some pid⟩ s =
      match get_item s pid with
      | some it => Except.ok (⟨200, dumps (itemToJson it)⟩, s)
      | none => Except.ok (⟨404, "\x7b\"message\": \"Project not found\"\x7d"⟩, s) := by
  simp only [get_project_by_id]
  cases get_item s pid with
  | some it => rfl
  | none => rfl

/-- C6: a PUT /projects/<pid> request with a JSON-object body on an id
present in the store returns 200 with body
{"message": "Project updated successfully"}, and afterwards the stored item
under that id is the old item with only name, description and status
replaced by the body's values — id and createdAt unchanged. -/

theorem update_existing_frame (s : Store) (pid : String) (it : Item)
    (n d st : JVal) (newId : String)
    (hmem : get_item s pid = some it) (hx : '/' ∉ pid.data) :
    lambda_handler ⟨some "PUT", some ("/projects/" ++ pid),
        some (Except.ok (JVal.obj [("name", n), ("description", d),
          ("status", st)])), none⟩ s newId
      = (⟨200, "\x7b\"message\": \"Project updated successfully\"\x7d"⟩,
          update_item s pid n d st)
    ∧ get_item (update_item s pid n d st) pid
      = some { it with name := n, description := d, status := st } := by
  constructor
  · simp only [lambda_handler, lambda_handler_inner, resolveRoute_dynamic pid hx]
    have h2 : routes "/projects/\x7bid\x7d" (some "PUT")
        = some HandlerRef.updateProject := rfl
    rw [h2]
    simp only [runHandler, update_project, pyJsonLoads, jGet, bind]
    simp only [Except.bind]
    have ln : List.lookup "name" [("name", n), ("description", d),
        ("status", st)] = some n := by simp [List.lookup]
    have ld : List.lookup "description" [("name", n), ("description", d),
        ("status", st)] = some d := by simp [List.lookup]
    have ls : List.lookup "status" [("name", n), ("description", d),
        ("status", st)] = some st := by simp [List.lookup]
    rw [ln, ld, ls]
    rfl
  · have hm : List.find? (fun j => j.id == pid) s = some it := hmem
    have hany : List.any s (fun j => j.id == pid) = true :=
      List.any_eq_true.mpr ⟨it, List.mem_of_find?_eq_some hm,
        @List.find?_some _ (fun j => j.id == pid) it s hm⟩
    rw [update_item, if_pos hany]
    exact get_item_map_keyed s pid it
      (fun j => { j with name := n, description := d, status := st })
      (fun j _ => rfl) hmem

theorem update_existing_frame_witness :
    get_item [⟨"p1", JVal.null, JVal.null, JVal.null, JVal.str "t0"⟩] "p1"
      = some ⟨"p1", JVal.null, JVal.null, JVal.null, JVal.str "t0"⟩
    ∧ get_item (update_item [⟨"p1", JVal.null, JVal.null, JVal.null, JVal.str "t0"⟩]
        "p1" (JVal.str "N") (JVal.str "D") (JVal.str "S")) "p1"
      = some ⟨"p1", JVal.str "N", JVal.str "D", JVal.str "S", JVal.str "t0"⟩ :=
  ⟨rfl, (update_existing_frame [⟨"p1", JVal.null, JVal.null, JVal.null, JVal.str "t0"⟩]
    "p1" ⟨"p1", JVal.null, JVal.null, JVal.null, JVal.str "t0"⟩
    (JVal.str "N") (JVal.str "D") (JVal.str "S") "u2" rfl (by decide)).2⟩

/-- C7: a DELETE /projects/<pid> request on an id present in the store
returns 200 with body {"message": "Project deleted successfully"}, the item
is no longer in the store, and a subsequent GET /projects/<pid> returns 404
with {"message": "Project not found"}. -/

theorem delete_then_get_by_id (s : Store) (pid : String) (it : Item)
    (newId newId2 : String)
    (_hmem : get_item s pid = some it) (hx : '/' ∉ pid.data) :
    lambda_handler ⟨some "DELETE", some ("/projects/" ++ pid), none, none⟩ s newId
      = (⟨200, "\x7b\"message\": \"Project deleted successfully\"\x7d"⟩,
          delete_item s pid)
    ∧ get_item (delete_item s pid) pid = none
    ∧ lambda_handler ⟨some "GET", some ("/projects/" ++ pid), none, none⟩
        (delete_item s pid) newId2
      = (⟨404, "\x7b\"message\": \"Project not found\"\x7d"⟩, delete_item s pid) := by
  refine ⟨?_, get_item_delete_item s pid, ?_⟩
  · simp only [lambda_handler, lambda_handler_inner, resolveRoute_dynamic pid hx]
    have h2 : routes "/projects/\x7bid\x7d" (some "DELETE")
        = some HandlerRef.deleteProject := rfl
    rw [h2]
    rfl
  · simp only [lambda_handler, lambda_handler_inner, resolveRoute_dynamic pid hx]
    have h2 : routes "/projects/\x7bid\x7d" (some "GET")
        = some HandlerRef.getProjectById := rfl
    rw [h2]
    simp only [runHandler, get_project_by_id, get_item_delete_item s pid]
    rfl

theorem delete_then_get_by_id_witness :
    get_item [⟨"p2", JVal.null, JVal.null, JVal.null, JVal.null⟩] "p2"
      = some ⟨"p2", JVal.null, JVal.null, JVal.null, JVal.null⟩
    ∧ get_item (delete_item [⟨"p2", JVal.null, JVal.null, JVal.null, JVal.null⟩] "p2") "p2"
      = none :=
  ⟨rfl, (delete_then_get_by_id [⟨"p2", JVal.null, JVal.null, JVal.null, JVal.null⟩]
    "p2" ⟨"p2", JVal.null, JVal.null, JVal.null, JVal.null⟩ "u3" "u4" rfl (by decide)).2.1⟩

/-- C8: on an id absent from the store, the update handler (with any
JSON-object body) and the delete handler still return their plain 200
success responses — both succeed (no raised failure) and neither produces a
404. -/

theorem update_delete_nonexistent_ok (s : Store) (pid : String)
    (fs : List (String × JVal)) (m p : Option String)
    (_habs : get_item s pid = none) :
    (∃ nv dv sv, update_project ⟨m, p, some (Except.ok (JVal.obj fs)), some pid⟩ s
      = Except.ok (⟨200, "\x7b\"message\": \"Project updated successfully\"\x7d"⟩,
          update_item s pid nv dv sv))
    ∧ delete_project ⟨m, p, none, some pid⟩ s
      = Except.ok (⟨200, "\x7b\"message\": \"Project deleted successfully\"\x7d"⟩,
          delete_item s pid) := by
  constructor
  · refine ⟨(List.lookup "name" fs).getD JVal.null,
      (List.lookup "description" fs).getD JVal.null,
      (List.lookup "status" fs).getD JVal.null, ?_⟩
    rfl
  · rfl

theorem update_delete_nonexistent_ok_witness :
    get_item [] "px" = none
    ∧ delete_project ⟨none, none, none, some "px"⟩ []
      = Except.ok (⟨200, "\x7b\"message\": \"Project deleted successfully\"\x7d"⟩,
          delete_item [] "px") :=
  ⟨rfl, (update_delete_nonexistent_ok [] "px" [] none none rfl).2⟩

/-- C9: a create request whose body parses to any JSON object returns 201
with a created item that is stored under the fresh id and returned in the
body, and every one of name/description/status/createdAt that is missing
from the body object is JVal.null (Python None) in that item; no failure
and no 400 arises from missing fields. -/

theorem create_missing_fields_null (s : Store) (newId : String)
    (fs : List (String × JVal)) (m p : Option String) (pp : Option String) :
    ∃ it : Item,
      create_project ⟨m, p, some (Except.ok (JVal.obj fs)), pp⟩ s newId
        = Except.ok (⟨201, dumps (itemToJson it)⟩, put_item s it)
      ∧ it.id = newId
      ∧ get_item (put_item s it) newId = some it
      ∧ (List.lookup "name" fs = none → it.name = JVal.null)
      ∧ (List.lookup "description" fs = none → it.description = JVal.null)
      ∧ (List.lookup "status" fs = none → it.status = JVal.null)
      ∧ (List.lookup "createdAt" fs = none → it.createdAt = JVal.null) := by
  refine ⟨⟨newId, (List.lookup "name" fs).getD JVal.null,
    (List.lookup "description" fs).getD JVal.null,
    (List.lookup "status" fs).getD JVal.null,
    (List.lookup "createdAt" fs).getD JVal.null⟩,
    rfl, rfl, get_item_put_item s _, ?_, ?_, ?_, ?_⟩ <;>
  · intro h
    simp [h]

/-- C10: an event with no path value makes the entry point answer 500 (the
router's `path.startswith` raises and the wrapper converts it), for any
method; an event with the registered path /projects but a missing
httpMethod — or an unregistered one such as PATCH — answers 404 Not Found:
the two missing-field cases surface with different status codes. -/

theorem missing_path_vs_missing_method (s : Store) (newId : String)
    (m : Option String) (b : Option (Except String JVal)) (pp : Option String) :
    (∃ msg, lambda_handler ⟨m, none, b, pp⟩ s newId
      = (⟨500, dumps (JVal.obj [("message",
          JVal.str ("An internal error occurred: " ++ msg))])⟩, s))
    ∧ lambda_handler ⟨none, some "/projects", b, pp⟩ s newId
      = (⟨404, "\x7b\"message\": \"Not Found\"\x7d"⟩, s)
    ∧ lambda_handler ⟨some "PATCH", some "/projects", b, pp⟩ s newId
      = (⟨404, "\x7b\"message\": \"Not Found\"\x7d"⟩, s) := by
  refine ⟨⟨"NoneType object has no attribute startswith", ?_⟩, ?_, ?_⟩ <;> rfl
